import Mathlib

/-!
Shallow embedding of `src/c_src/termbox_port.c` (the termbox port process:
session loop, line framing, command dispatch, shadow buffer cache).

Machine integers are modelled as `Nat`/`Int` with explicit `% 2^w` at the
points where the C code performs a conversion to an unsigned type.  The
external termbox backend (`tb_*` functions) is modelled as an abstract
`Backend` record plus a trace of `BackendCall`s; the two UTF-8 helpers of the
termbox library, which are not part of this repository, are modelled from the
spec's words and say so in their doc comments.
-/

namespace TermboxPort

/-- One terminal cell, mirroring `struct tb_cell`: codepoint `ch` (uint32),
foreground `fg` and background `bg` attributes (uint16). -/
structure Cell where
  ch : Nat
  fg : Nat
  bg : Nat
deriving DecidableEq

/-- `TB_DEFAULT` attribute of termbox (0x00). -/
def TB_DEFAULT : Nat := 0

/-- The default cell the C code fills the shadow buffer with: space
codepoint, default fg/bg (`termbox_port.c` lines 125-131). -/
def defaultCell : Cell := ⟨32, TB_DEFAULT, TB_DEFAULT⟩

/-- The shadow buffer globals of `termbox_port.c` (lines 31-33):
`shadow_buffer` (NULL modelled as `none`), `shadow_buffer_width`,
`shadow_buffer_height`.  C `int` dimensions are modelled as `Int`. -/
structure ShadowBuffer where
  width : Int
  height : Int
  cells : Option (List Cell)
deriving DecidableEq

/-- The state of the shadow buffer globals at process start:
NULL buffer, zero dimensions. -/
def sb0 : ShadowBuffer := ⟨0, 0, none⟩

/-- `update_shadow_buffer_size` (lines 91-135).  The old storage is always
freed; non-positive dimensions leave an empty cache; otherwise a fresh
`width*height` buffer of default cells is allocated.  `allocOk` models the
outcome of `malloc`: on failure the C code zeroes the dimensions, leaves the
buffer NULL and only logs to stderr (it does not exit). -/
def update_shadow_buffer_size (width height : Int) (allocOk : Bool) : ShadowBuffer :=
  if width ≤ 0 || height ≤ 0 then ⟨0, 0, none⟩
  else if allocOk then ⟨width, height, some (List.replicate (width * height).toNat defaultCell)⟩
  else ⟨0, 0, none⟩

/-- Whether `update_shadow_buffer_size` emits its allocation-failure log line
on stderr (`fprintf(stderr, "termbox_port C_LOG ERROR: ... Failed to allocate
shadow buffer ...")`, lines 114-117).  This is the only reporting that
happens on allocation failure; the process continues. -/
def update_logs_alloc_failure (width height : Int) (allocOk : Bool) : Bool :=
  !(width ≤ 0 || height ≤ 0) && !allocOk

/-- The in-bounds test the C code performs before touching the shadow buffer:
`x >= 0 && x < shadow_buffer_width && y >= 0 && y < shadow_buffer_height`. -/
def inBounds (sb : ShadowBuffer) (x y : Int) : Bool :=
  0 ≤ x && x < sb.width && 0 ≤ y && y < sb.height

/-- The row-major index `(size_t)y * shadow_buffer_width + x`. -/
def cellIndex (sb : ShadowBuffer) (x y : Int) : Nat :=
  (y * sb.width + x).toNat

/-- The shadow-buffer mirror write performed by `change_cell` and by each step
of the `print` loop (lines 517-522 and 548-555): skipped when the buffer is
NULL or the coordinates are out of bounds, otherwise one cell is updated. -/
def sbWrite (sb : ShadowBuffer) (x y : Int) (c : Cell) : ShadowBuffer :=
  match sb.cells with
  | none => sb
  | some cs =>
    if inBounds sb x y then ⟨sb.width, sb.height, some (cs.set (cellIndex sb x y) c)⟩
    else sb

/-- The shadow-buffer read performed by `get_cell` (lines 571-577): `none`
models the `ERROR invalid_coords_get_cell` condition (NULL buffer or
out-of-bounds coordinates). -/
def sbRead (sb : ShadowBuffer) (x y : Int) : Option Cell :=
  match sb.cells with
  | none => none
  | some cs =>
    if inBounds sb x y then some (cs.getD (cellIndex sb x y) defaultCell)
    else none

/-- The shadow-buffer reset performed by `clear` (lines 454-465): every cell
of a non-empty buffer is set to the default cell; an empty/NULL buffer is left
alone. -/
def sbClear (sb : ShadowBuffer) : ShadowBuffer :=
  match sb.cells with
  | none => sb
  | some _ =>
    if 0 < sb.width && 0 < sb.height then
      ⟨sb.width, sb.height, some (List.replicate (sb.width * sb.height).toNat defaultCell)⟩
    else sb

/-- The invariant maintained for the shadow buffer globals: a NULL buffer
goes with zero dimensions, a non-NULL buffer has exactly `width*height`
cells and positive dimensions. -/
def SBInv (sb : ShadowBuffer) : Prop :=
  match sb.cells with
  | none => sb.width = 0 ∧ sb.height = 0
  | some cs => cs.length = (sb.width * sb.height).toNat ∧ 0 < sb.width ∧ 0 < sb.height

/-- C `isspace` on the characters that can occur here. -/
def isSpaceChar (c : Char) : Bool :=
  c = ' ' || c = '\t' || c = '\n' || c = '\r' || c = '\x0b' || c = '\x0c'

/-- Decimal digit test. -/
def isDigitChar (c : Char) : Bool :=
  '0' ≤ c && c ≤ '9'

/-- Value of a list of decimal digit characters, most significant first. -/
def digitsVal (l : List Char) : Nat :=
  l.foldl (fun acc c => acc * 10 + (c.toNat - 48)) 0

/-- C `atoi`: skip leading whitespace, optional sign, then leading decimal
digits; no digits yields 0.  (Overflow is undefined behaviour in C; the model
keeps the mathematical value.) -/
def atoi (s : String) : Int :=
  let l := s.data.dropWhile isSpaceChar
  match l with
  | '-' :: rest => -(digitsVal (rest.takeWhile isDigitChar) : Int)
  | '+' :: rest => (digitsVal (rest.takeWhile isDigitChar) : Int)
  | _ => (digitsVal (l.takeWhile isDigitChar) : Int)

/-- C `strtoul(s, NULL, 10)` as used here, as a 64-bit unsigned value: a
leading minus sign negates modulo 2^64. -/
def strtoul10 (s : String) : Nat :=
  let l := s.data.dropWhile isSpaceChar
  match l with
  | '-' :: rest => (2 ^ 64 - digitsVal (rest.takeWhile isDigitChar) % 2 ^ 64) % 2 ^ 64
  | '+' :: rest => digitsVal (rest.takeWhile isDigitChar) % 2 ^ 64
  | _ => digitsVal (l.takeWhile isDigitChar) % 2 ^ 64

/-- C conversion of an `int` to `uint16_t` (modulo 2^16). -/
def toUInt16 (i : Int) : Nat := (i % 65536).toNat

/-- C conversion of an `int` to `uint8_t` (modulo 2^8). -/
def toUInt8 (i : Int) : Nat := (i % 256).toNat

/-- C conversion of an `unsigned long` to `uint32_t` (modulo 2^32). -/
def toUInt32 (n : Nat) : Nat := n % 4294967296

/-- Helper for `tokenize`: split a character list on spaces, accumulating the
current token in reverse. -/
def tokensAux : List Char → List Char → List String
  | cur, [] => if cur.isEmpty then [] else [⟨cur.reverse⟩]
  | cur, c :: rest =>
    if c = ' ' then
      if cur.isEmpty then tokensAux [] rest
      else ⟨cur.reverse⟩ :: tokensAux [] rest
    else tokensAux (c :: cur) rest

/-- The `strtok(command_line, " ")` loop of `handle_client_command`
(lines 421-427): split on runs of spaces, collect at most `MAX_ARGS = 10`
tokens, silently drop the rest of the line. -/
def tokenize (line : String) : List String :=
  (tokensAux [] line.data).take 10

/-- The trailing-`'\n'`-then-`'\r'` stripping at the top of
`handle_client_command` (lines 407-414). -/
def stripLineEnding (s : String) : String :=
  let l := s.data
  let l1 := if l.getLast? = some '\n' then l.dropLast else l
  let l2 := if l1.getLast? = some '\r' then l1.dropLast else l1
  ⟨l2⟩

/-- Modelled from the spec: `tb_utf8_unicode_to_char` belongs to the external
termbox backend (not part of this repository); the spec describes the
`get_cell` payload as the codepoint "encoded as UTF-8 text".  For Unicode
scalar values we model it as the one-character string of that codepoint. -/
def tb_utf8_unicode_to_char (c : Nat) : String :=
  String.singleton (Char.ofNat c)

/-- Modelled from the spec: `tb_utf8_char_to_unicode` belongs to the external
termbox backend; the spec says `print` "decodes text as a sequence of Unicode
scalar values".  The C print loop additionally stops at a zero codepoint. -/
def decodeText (s : String) : List Nat :=
  (s.data.map Char.toNat).takeWhile (fun c => c ≠ 0)

/-- The abstract backend surface the dispatcher consumes: current dimensions
and the result codes of the two mode-selection calls. -/
structure Backend where
  tbWidth : Int
  tbHeight : Int
  selInput : Int → Int
  selOutput : Int → Int

/-- One call made to the termbox backend, recorded as a trace element. -/
inductive BackendCall where
  | present
  | clear
  | change_cell (x y : Int) (ch : Nat) (fg bg : Nat)
  | set_cursor (x y : Int)
  | widthQ
  | heightQ
  | select_input_mode (m : Int)
  | select_output_mode (m : Int)
  | set_clear_attributes (fg bg : Nat)
deriving DecidableEq

/-- Result of `handle_client_command`: new shadow buffer state, backend calls
made, lines handed to `write_socket_line` (in order), and the C return value
(0 = continue, 1 = shutdown or failed write of a success response). -/
structure CmdResult where
  sb : ShadowBuffer
  calls : List BackendCall
  out : List String
  ret : Int
deriving DecidableEq

/-- A termbox event (`struct tb_event`): `type`/`mod` uint8, `key` uint16,
`ch` uint32, `w h x y` C ints. -/
structure TbEvent where
  type : Nat
  mod : Nat
  key : Nat
  ch : Nat
  w : Int
  h : Int
  x : Int
  y : Int
deriving DecidableEq

/-- `TB_EVENT_RESIZE` of termbox. -/
def TB_EVENT_RESIZE : Nat := 2

/-- `send_event_to_client`'s formatting (lines 742-744):
`EVENT {"type":%u, "mod":%u, "key":%u, "ch":%u, "w":%d, "h":%d, "x":%d, "y":%d}`. -/
def serializeEvent (e : TbEvent) : String :=
  "EVENT \x7b\"type\":" ++ Nat.repr e.type ++ ", \"mod\":" ++ Nat.repr e.mod ++
  ", \"key\":" ++ Nat.repr e.key ++ ", \"ch\":" ++ Nat.repr e.ch ++
  ", \"w\":" ++ toString e.w ++ ", \"h\":" ++ toString e.h ++
  ", \"x\":" ++ toString e.x ++ ", \"y\":" ++ toString e.y ++ "\x7d"

/-- The text reassembly of the `print` branch (lines 483-499): the tokens
from `args[5]` on, rejoined with single spaces. -/
def joinSpaces : List String → String
  | [] => ""
  | [t] => t
  | t :: rest => t ++ " " ++ joinSpaces rest

/-- The rejoined-text overflow check in the `print` branch (lines 487-493):
the check fires exactly when the rejoined text would reach
`SOCKET_BUFFER_SIZE` (4096) bytes. -/
def printTextTooLong (text : String) : Bool :=
  4096 ≤ text.utf8ByteSize

/-- The `print` character loop (lines 504-526): decode codepoints left to
right, call `tb_change_cell` for each one unconditionally, mirror into the
shadow buffer only when in bounds, and advance the column by one each step. -/
def printLoop (y : Int) (fg bg : Nat) : ShadowBuffer → Int → List Nat → ShadowBuffer × List BackendCall
  | sb, _, [] => (sb, [])
  | sb, x, cp :: rest =>
    let res := printLoop y fg bg (sbWrite sb x y ⟨cp, fg, bg⟩) (x + 1) rest
    (res.1, BackendCall.change_cell x y cp fg bg :: res.2)

/-- The command dispatch of `handle_client_command` (lines 420-734), on the
already-tokenized argument list (`args[0]` is the verb).  `writeOk` models
whether `write_socket_line` succeeds; the C code checks the write result only
for success responses (returning 1 on failure) and ignores it for error
responses, for the `shutdown` acknowledgement and for event lines. -/
def dispatch (b : Backend) (writeOk : Bool) (sb : ShadowBuffer) (args : List String) : CmdResult :=
  match args with
  | [] => ⟨sb, [], [], 0⟩
  | cmd :: rest =>
    if cmd = "present" then
      if rest.length = 0 then
        ⟨sb, [.present], ["OK"], if writeOk then 0 else 1⟩
      else ⟨sb, [], ["ERROR invalid_args_present"], 0⟩
    else if cmd = "clear" then
      if rest.length = 0 then
        ⟨sbClear sb, [.clear], ["OK"], if writeOk then 0 else 1⟩
      else ⟨sb, [], ["ERROR invalid_args_clear"], 0⟩
    else if cmd = "print" then
      if 5 ≤ rest.length then
        let x := atoi (rest.getD 0 "")
        let y := atoi (rest.getD 1 "")
        let fg := toUInt16 (atoi (rest.getD 2 ""))
        let bg := toUInt16 (atoi (rest.getD 3 ""))
        let text := joinSpaces (rest.drop 4)
        if printTextTooLong text then
          ⟨sb, [], ["ERROR text_too_long_print"], 0⟩
        else
          let res := printLoop y fg bg sb x (decodeText text)
          ⟨res.1, res.2, ["OK"], if writeOk then 0 else 1⟩
      else ⟨sb, [], ["ERROR invalid_args_print"], 0⟩
    else if cmd = "change_cell" then
      if rest.length = 5 then
        let x := atoi (rest.getD 0 "")
        let y := atoi (rest.getD 1 "")
        let cp := toUInt32 (strtoul10 (rest.getD 2 ""))
        let fg := toUInt16 (atoi (rest.getD 3 ""))
        let bg := toUInt16 (atoi (rest.getD 4 ""))
        ⟨sbWrite sb x y ⟨cp, fg, bg⟩, [.change_cell x y cp fg bg], ["OK"],
         if writeOk then 0 else 1⟩
      else ⟨sb, [], ["ERROR invalid_args_change_cell"], 0⟩
    else if cmd = "get_cell" then
      if rest.length = 2 then
        let x := atoi (rest.getD 0 "")
        let y := atoi (rest.getD 1 "")
        match sbRead sb x y with
        | none => ⟨sb, [], ["ERROR invalid_coords_get_cell"], 0⟩
        | some cell =>
          ⟨sb, [],
           ["OK_CELL " ++ toString x ++ " " ++ toString y ++ " " ++
            tb_utf8_unicode_to_char cell.ch ++ " " ++ Nat.repr cell.fg ++ " " ++
            Nat.repr cell.bg],
           if writeOk then 0 else 1⟩
      else ⟨sb, [], ["ERROR invalid_args_get_cell"], 0⟩
    else if cmd = "width" then
      if rest.length = 0 then
        ⟨sb, [.widthQ], ["OK_WIDTH " ++ toString b.tbWidth], if writeOk then 0 else 1⟩
      else ⟨sb, [], ["ERROR invalid_args_width"], 0⟩
    else if cmd = "height" then
      if rest.length = 0 then
        ⟨sb, [.heightQ], ["OK_HEIGHT " ++ toString b.tbHeight], if writeOk then 0 else 1⟩
      else ⟨sb, [], ["ERROR invalid_args_height"], 0⟩
    else if cmd = "set_cursor" then
      if rest.length = 2 then
        let x := atoi (rest.getD 0 "")
        let y := atoi (rest.getD 1 "")
        ⟨sb, [.set_cursor x y], ["OK"], if writeOk then 0 else 1⟩
      else ⟨sb, [], ["ERROR invalid_args_set_cursor"], 0⟩
    else if cmd = "set_input_mode" then
      if rest.length = 1 then
        let m := atoi (rest.getD 0 "")
        if b.selInput m < 0 then
          ⟨sb, [.select_input_mode m], ["ERROR tb_select_input_mode_failed"], 0⟩
        else
          ⟨sb, [.select_input_mode m], ["OK"], if writeOk then 0 else 1⟩
      else ⟨sb, [], ["ERROR invalid_args_set_input_mode"], 0⟩
    else if cmd = "set_output_mode" then
      if rest.length = 1 then
        let m := atoi (rest.getD 0 "")
        if b.selOutput m < 0 then
          ⟨sb, [.select_output_mode m], ["ERROR tb_select_output_mode_failed"], 0⟩
        else
          ⟨sb, [.select_output_mode m], ["OK"], if writeOk then 0 else 1⟩
      else ⟨sb, [], ["ERROR invalid_args_set_output_mode"], 0⟩
    else if cmd = "set_clear_attributes" then
      if rest.length = 2 then
        let fg := toUInt16 (atoi (rest.getD 0 ""))
        let bg := toUInt16 (atoi (rest.getD 1 ""))
        ⟨sb, [.set_clear_attributes fg bg], ["OK"], if writeOk then 0 else 1⟩
      else ⟨sb, [], ["ERROR invalid_args_set_clear_attributes"], 0⟩
    else if cmd = "DEBUG_SEND_EVENT" then
      if rest.length = 8 then
        let ev : TbEvent :=
          ⟨toUInt8 (atoi (rest.getD 0 "")), toUInt8 (atoi (rest.getD 1 "")),
           toUInt16 (atoi (rest.getD 2 "")), toUInt32 (strtoul10 (rest.getD 3 "")),
           atoi (rest.getD 4 ""), atoi (rest.getD 5 ""),
           atoi (rest.getD 6 ""), atoi (rest.getD 7 "")⟩
        ⟨sb, [], [serializeEvent ev], 0⟩
      else ⟨sb, [], ["ERROR invalid_args_debug_send_event"], 0⟩
    else if cmd = "shutdown" then
      ⟨sb, [], ["OK"], 1⟩
    else
      ⟨sb, [], ["ERROR unknown_command"], 0⟩

/-- `handle_client_command` on one received line: strip the line ending,
tokenize, dispatch. -/
def handle_client_command (b : Backend) (writeOk : Bool) (sb : ShadowBuffer)
    (line : String) : CmdResult :=
  dispatch b writeOk sb (tokenize (stripLineEnding line))

/-- How `run_main_loop` (lines 352-362) reacts to a `handle_client_command`
return value: 1 is treated as clean shutdown (loop exit status 0), a negative
value as an error exit (status 1), 0 continues the loop. -/
def loopOutcomeOfRet (ret : Int) : Option Int :=
  if ret = 1 then some 0 else if ret < 0 then some 1 else none

/-- Cumulative result of the per-read line dispatch loop
(`run_main_loop` lines 344-365). -/
structure BatchResult where
  sb : ShadowBuffer
  calls : List BackendCall
  out : List String
  outcome : Option Int
deriving DecidableEq

/-- The dispatch loop over the complete lines extracted from one read: lines
are handled strictly in order; a return value of 1 stops the loop with exit
status 0 and discards the remaining lines; a negative return value stops it
with status 1. -/
def processLines (b : Backend) (writeOk : Bool) : ShadowBuffer → List String → BatchResult
  | sb, [] => ⟨sb, [], [], none⟩
  | sb, l :: ls =>
    let r := handle_client_command b writeOk sb l
    if r.ret = 1 then ⟨r.sb, r.calls, r.out, some 0⟩
    else if r.ret < 0 then ⟨r.sb, r.calls, r.out, some 1⟩
    else
      let rest := processLines b writeOk r.sb ls
      ⟨rest.sb, r.calls ++ rest.calls, r.out ++ rest.out, rest.outcome⟩

/-- Helper for `splitBuffer`: cut a character list at each newline,
accumulating the current line in reverse. -/
def splitBufferAux : List Char → List Char → List String × List Char
  | cur, [] => ([], cur.reverse)
  | cur, c :: rest =>
    if c = '\n' then
      let r := splitBufferAux [] rest
      (⟨cur.reverse⟩ :: r.1, r.2)
    else splitBufferAux (c :: cur) rest

/-- The `strchr(line_start, '\n')` framing (lines 344-375): complete lines
before each newline, plus the retained trailing remainder. -/
def splitBuffer (s : String) : List String × String :=
  let r := splitBufferAux [] s.data
  (r.1, ⟨r.2⟩)

/-- The event half of one loop iteration (lines 280-303): on a resize event
the shadow buffer is resized first, then the event is serialized and handed
to `write_socket_line`; a failed event write is only logged
(`send_event_to_client`, lines 749-753), never escalated. -/
def eventStep (sb : ShadowBuffer) (e : TbEvent) (allocOk : Bool) : ShadowBuffer × List String :=
  let sb1 := if e.type = TB_EVENT_RESIZE then update_shadow_buffer_size e.w e.h allocOk else sb
  (sb1, [serializeEvent e])

/-- What the socket read of one iteration produced. -/
inductive ReadResult where
  | noData
  | closed
  | readErr
  | data (s : String)

/-- Result of one iteration of the serving loop. -/
structure IterResult where
  sb : ShadowBuffer
  calls : List BackendCall
  out : List String
  outcome : Option Int
  leftover : String
deriving DecidableEq

/-- One iteration of the serving loop of `run_main_loop` (lines 279-383):
first the bounded event peek (forwarding any pending event, resizing the
cache first on resize), then the zero-timeout socket check; on available
data the accumulated buffer is split into lines which are dispatched in
order.  `closed` (empty read) exits with status 0, a read error with
status 1; an overlong line-free remainder resets the framing buffer. -/
def loopIteration (b : Backend) (writeOk allocOk : Bool) (sb : ShadowBuffer)
    (ev : Option TbEvent) (carry : String) (rd : ReadResult) : IterResult :=
  let stepped := match ev with
    | some e => eventStep sb e allocOk
    | none => (sb, [])
  match rd with
  | .noData => ⟨stepped.1, [], stepped.2, none, carry⟩
  | .closed => ⟨stepped.1, [], stepped.2, some 0, carry⟩
  | .readErr => ⟨stepped.1, [], stepped.2, some 1, carry⟩
  | .data s =>
    let parts := splitBuffer (carry ++ s)
    let r := processLines b writeOk stepped.1 parts.1
    let leftover :=
      if r.outcome.isSome then parts.2
      else if 4095 ≤ parts.2.utf8ByteSize then "" else parts.2
    ⟨r.sb, r.calls, stepped.2 ++ r.out, r.outcome, leftover⟩

/-- `main`'s translation of the loop result into the process exit code
(line 215): 0 on clean exit, 1 otherwise. -/
def processExit (loopStatus : Int) : Int :=
  if loopStatus = 0 then 0 else 1

/-- Stage at which the socket bootstrap of `main` (lines 151-199) stops. -/
inductive BootStage where
  | socketFail
  | bindFail
  | listenFail
  | ok
deriving DecidableEq

/-- Lines `main` writes to standard output during bootstrap: nothing on any
failure; `OK <socket-path>` (line 198) once listening. -/
def bootstrapStdout (st : BootStage) (path : String) : List String :=
  match st with
  | .socketFail => []
  | .bindFail => []
  | .listenFail => []
  | .ok => ["OK " ++ path]

/-- The structured diagnostic line `main` writes on standard error for each
bootstrap failure (lines 156, 185, 194); `perror` output and startup logs,
also on stderr, are not modelled. -/
def bootstrapStderrLine (st : BootStage) : Option String :=
  match st with
  | .socketFail => some "error socket_create_failed"
  | .bindFail => some "error socket_bind_failed"
  | .listenFail => some "error socket_listen_failed"
  | .ok => none

/-- The exit code `main` returns before reaching `accept`, if any
(lines 157, 186, 195). -/
def bootstrapExitBeforeAccept (st : BootStage) : Option Int :=
  match st with
  | .socketFail => some 1
  | .bindFail => some 1
  | .listenFail => some 1
  | .ok => none

/-- A concrete backend used for witnesses and counterexamples. -/
def bC : Backend := ⟨80, 24, fun _ => 0, fun _ => 0⟩

/-! ## Helper lemmas -/

theorem listGetDSet {α : Type} : ∀ (l : List α) (i : Nat) (a d : α), i < l.length →
    (l.set i a).getD i d = a
  | [], i, _, _, h => absurd h (by simp)
  | _ :: _, 0, _, _, _ => rfl
  | _ :: xs, i + 1, a, d, h => listGetDSet xs i a d (by simpa using h)

theorem listGetDSetNe {α : Type} : ∀ (l : List α) (i j : Nat) (a d : α), i ≠ j →
    (l.set i a).getD j d = l.getD j d
  | [], _, _, _, _, _ => rfl
  | _ :: _, 0, 0, _, _, h => absurd rfl h
  | _ :: _, 0, _ + 1, _, _, _ => rfl
  | _ :: _, _ + 1, 0, _, _, _ => rfl
  | _ :: xs, i + 1, j + 1, a, d, h => listGetDSetNe xs i j a d (by omega)

theorem listGetDReplicate {α : Type} : ∀ (n i : Nat) (a : α),
    (List.replicate n a).getD i a = a
  | 0, _, _ => rfl
  | _ + 1, 0, _ => rfl
  | n + 1, i + 1, a => listGetDReplicate n i a

theorem toUInt16_of_lt (n : Nat) (h : n < 65536) : toUInt16 (n : Int) = n := by
  unfold toUInt16; omega

theorem toUInt32_of_lt (n : Nat) (h : n < 4294967296) : toUInt32 n = n := by
  unfold toUInt32; omega

theorem inBounds_iff (sb : ShadowBuffer) (x y : Int) :
    inBounds sb x y = true ↔ 0 ≤ x ∧ x < sb.width ∧ 0 ≤ y ∧ y < sb.height := by
  simp [inBounds, and_assoc]

theorem cellIndex_lt (sb : ShadowBuffer) (x y : Int) (h : inBounds sb x y = true) :
    cellIndex sb x y < (sb.width * sb.height).toNat := by
  rw [inBounds_iff] at h
  obtain ⟨hx0, hx1, hy0, hy1⟩ := h
  have h1 : y * sb.width + x < sb.width * sb.height := by nlinarith
  have h2 : 0 ≤ y * sb.width + x := by nlinarith
  unfold cellIndex
  omega

theorem rowMajor_ne (w x y u v : Int) (hx0 : 0 ≤ x) (hx1 : x < w) (hu0 : 0 ≤ u)
    (hu1 : u < w) (hne : x ≠ u ∨ y ≠ v) : y * w + x ≠ v * w + u := by
  have key : y ≠ v → y * w + x ≠ v * w + u := by
    intro hyv heq
    rcases lt_or_gt_of_ne hyv with hlt | hgt
    · have := mul_le_mul_of_nonneg_right (show y + 1 ≤ v by omega) (show (0:Int) ≤ w by omega)
      nlinarith
    · have := mul_le_mul_of_nonneg_right (show v + 1 ≤ y by omega) (show (0:Int) ≤ w by omega)
      nlinarith
  rcases hne with h | h
  · rcases eq_or_ne y v with rfl | hyv
    · intro heq; omega
    · exact key hyv
  · exact key h

theorem cellIndex_ne (sb : ShadowBuffer) (x y u v : Int)
    (hxy : inBounds sb x y = true) (huv : inBounds sb u v = true)
    (hne : u ≠ x ∨ v ≠ y) : cellIndex sb x y ≠ cellIndex sb u v := by
  rw [inBounds_iff] at hxy huv
  have h := rowMajor_ne sb.width x y u v hxy.1 hxy.2.1 huv.1 huv.2.1
    (by tauto)
  unfold cellIndex
  have h1 : 0 ≤ y * sb.width + x := by nlinarith [hxy.1, hxy.2.2.1, huv.1]
  have h2 : 0 ≤ v * sb.width + u := by nlinarith [huv.1, huv.2.2.1]
  omega

theorem sbWrite_width (sb : ShadowBuffer) (x y : Int) (c : Cell) :
    (sbWrite sb x y c).width = sb.width := by
  unfold sbWrite
  rcases sb with ⟨w, h, cells⟩
  cases cells <;> simp <;> split <;> rfl

theorem sbWrite_height (sb : ShadowBuffer) (x y : Int) (c : Cell) :
    (sbWrite sb x y c).height = sb.height := by
  unfold sbWrite
  rcases sb with ⟨w, h, cells⟩
  cases cells <;> simp <;> split <;> rfl

theorem inBounds_sbWrite (sb : ShadowBuffer) (x y u v : Int) (c : Cell) :
    inBounds (sbWrite sb x y c) u v = inBounds sb u v := by
  unfold inBounds
  rw [sbWrite_width, sbWrite_height]

theorem sbWrite_oob (sb : ShadowBuffer) (x y : Int) (c : Cell)
    (h : inBounds sb x y = false) : sbWrite sb x y c = sb := by
  unfold sbWrite
  rcases sb with ⟨w, hh, cells⟩
  cases cells
  · rfl
  · simp only [h]; simp

theorem SBInv_cells_of_inBounds (sb : ShadowBuffer) (x y : Int) (hinv : SBInv sb)
    (hib : inBounds sb x y = true) :
    ∃ cs, sb.cells = some cs ∧ cs.length = (sb.width * sb.height).toNat := by
  rcases sb with ⟨w, h, cells⟩
  cases cells with
  | none =>
    exfalso
    obtain ⟨hw, hh⟩ := hinv
    rw [inBounds_iff] at hib
    simp only at hib hw hh
    omega
  | some cs => exact ⟨cs, rfl, hinv.1⟩

theorem SBInv_sbWrite (sb : ShadowBuffer) (x y : Int) (c : Cell) (hinv : SBInv sb) :
    SBInv (sbWrite sb x y c) := by
  rcases sb with ⟨w, h, cells⟩
  cases cells with
  | none => exact hinv
  | some cs =>
    unfold sbWrite
    simp only
    split
    · unfold SBInv
      simpa using hinv
    · exact hinv

theorem sbRead_sbWrite_self (sb : ShadowBuffer) (x y : Int) (c : Cell)
    (hinv : SBInv sb) (hib : inBounds sb x y = true) :
    sbRead (sbWrite sb x y c) x y = some c := by
  obtain ⟨cs, hcs, hlen⟩ := SBInv_cells_of_inBounds sb x y hinv hib
  rcases sb with ⟨w, h, cells⟩
  simp only at hcs
  subst hcs
  unfold sbWrite sbRead
  simp only [hib, if_true]
  have hib' : inBounds ⟨w, h, some (cs.set (cellIndex ⟨w, h, some cs⟩ x y) c)⟩ x y = true := hib
  simp only [hib', if_true]
  have hidx : cellIndex (⟨w, h, some cs⟩ : ShadowBuffer) x y < cs.length := by
    rw [hlen]; exact cellIndex_lt _ x y hib
  congr 1
  exact listGetDSet cs _ c defaultCell hidx

theorem sbRead_sbWrite_ne (sb : ShadowBuffer) (x y u v : Int) (c : Cell)
    (hne : u ≠ x ∨ v ≠ y) : sbRead (sbWrite sb x y c) u v = sbRead sb u v := by
  rcases sb with ⟨w, h, cells⟩
  cases cells with
  | none => rfl
  | some cs =>
    by_cases hxy : inBounds ⟨w, h, some cs⟩ x y = true
    · unfold sbWrite
      simp only [hxy, if_true]
      unfold sbRead
      by_cases huv : inBounds ⟨w, h, some cs⟩ u v = true
      · have huv' : inBounds ⟨w, h, some (cs.set (cellIndex ⟨w, h, some cs⟩ x y) c)⟩ u v = true := huv
        simp only [huv, huv', if_true]
        congr 1
        exact listGetDSetNe cs _ _ c defaultCell (cellIndex_ne _ x y u v hxy huv hne)
      · have huv' : ¬ inBounds ⟨w, h, some (cs.set (cellIndex ⟨w, h, some cs⟩ x y) c)⟩ u v = true := huv
        simp only [huv, huv']
        simp
    · rw [sbWrite_oob _ _ _ _ (by simpa using hxy)]

/-! ## printLoop lemmas -/

theorem printLoop_width (y : Int) (fg bg : Nat) :
    ∀ (cps : List Nat) (sb : ShadowBuffer) (x : Int),
      (printLoop y fg bg sb x cps).1.width = sb.width := by
  intro cps
  induction cps with
  | nil => intro sb x; rfl
  | cons cp rest ih =>
    intro sb x
    show (printLoop y fg bg (sbWrite sb x y ⟨cp, fg, bg⟩) (x + 1) rest).1.width = sb.width
    rw [ih, sbWrite_width]

theorem printLoop_height (y : Int) (fg bg : Nat) :
    ∀ (cps : List Nat) (sb : ShadowBuffer) (x : Int),
      (printLoop y fg bg sb x cps).1.height = sb.height := by
  intro cps
  induction cps with
  | nil => intro sb x; rfl
  | cons cp rest ih =>
    intro sb x
    show (printLoop y fg bg (sbWrite sb x y ⟨cp, fg, bg⟩) (x + 1) rest).1.height = sb.height
    rw [ih, sbWrite_height]

theorem printLoop_calls_length (y : Int) (fg bg : Nat) :
    ∀ (cps : List Nat) (sb : ShadowBuffer) (x : Int),
      (printLoop y fg bg sb x cps).2.length = cps.length := by
  intro cps
  induction cps with
  | nil => intro sb x; rfl
  | cons cp rest ih =>
    intro sb x
    show ((printLoop y fg bg (sbWrite sb x y ⟨cp, fg, bg⟩) (x + 1) rest).2.length) + 1 =
      rest.length + 1
    rw [ih]

theorem printLoop_calls_getD (y : Int) (fg bg : Nat) :
    ∀ (cps : List Nat) (sb : ShadowBuffer) (x : Int) (i : Nat), i < cps.length →
      (printLoop y fg bg sb x cps).2.getD i .present =
        .change_cell (x + i) y (cps.getD i 0) fg bg := by
  intro cps
  induction cps with
  | nil => intro sb x i h; simp at h
  | cons cp rest ih =>
    intro sb x i h
    cases i with
    | zero =>
      show BackendCall.change_cell x y cp fg bg = .change_cell (x + ((0:Nat):Int)) y cp fg bg
      norm_num
    | succ j =>
      have hrec := ih (sbWrite sb x y ⟨cp, fg, bg⟩) (x + 1) j (by simpa using h)
      show (printLoop y fg bg (sbWrite sb x y ⟨cp, fg, bg⟩) (x + 1) rest).2.getD j .present =
        .change_cell (x + ((j+1:Nat):Int)) y (rest.getD j 0) fg bg
      rw [hrec]
      congr 1
      push_cast
      ring

theorem printLoop_untouched (y : Int) (fg bg : Nat) :
    ∀ (cps : List Nat) (sb : ShadowBuffer) (x u v : Int),
      (v ≠ y ∨ u < x ∨ x + cps.length ≤ u) →
      sbRead (printLoop y fg bg sb x cps).1 u v = sbRead sb u v := by
  intro cps
  induction cps with
  | nil => intro sb x u v _; rfl
  | cons cp rest ih =>
    intro sb x u v h
    show sbRead (printLoop y fg bg (sbWrite sb x y ⟨cp, fg, bg⟩) (x + 1) rest).1 u v =
      sbRead sb u v
    simp only [List.length_cons] at h
    have hrest : v ≠ y ∨ u < x + 1 ∨ (x + 1) + (rest.length : Int) ≤ u := by
      rcases h with h | h | h
      · exact Or.inl h
      · exact Or.inr (Or.inl (by omega))
      · exact Or.inr (Or.inr (by omega))
    have hne : u ≠ x ∨ v ≠ y := by
      rcases h with h | h | h
      · exact Or.inr h
      · exact Or.inl (by omega)
      · exact Or.inl (by omega)
    rw [ih _ _ _ _ hrest, sbRead_sbWrite_ne sb x y u v ⟨cp, fg, bg⟩ hne]

theorem printLoop_read (y : Int) (fg bg : Nat) :
    ∀ (cps : List Nat) (sb : ShadowBuffer) (x : Int), SBInv sb →
      ∀ i : Nat, i < cps.length → inBounds sb (x + i) y = true →
      sbRead (printLoop y fg bg sb x cps).1 (x + i) y = some ⟨cps.getD i 0, fg, bg⟩ := by
  intro cps
  induction cps with
  | nil => intro sb x _ i h; simp at h
  | cons cp rest ih =>
    intro sb x hinv i hi hib
    cases i with
    | zero =>
      have hx0 : x + ((0:Nat):Int) = x := by norm_num
      show sbRead (printLoop y fg bg (sbWrite sb x y ⟨cp, fg, bg⟩) (x + 1) rest).1
        (x + ((0:Nat):Int)) y = some ⟨cp, fg, bg⟩
      rw [hx0,
        printLoop_untouched y fg bg rest _ (x + 1) x y (Or.inr (Or.inl (by omega)))]
      exact sbRead_sbWrite_self sb x y ⟨cp, fg, bg⟩ hinv (by rwa [hx0] at hib)
    | succ j =>
      have hinv' := SBInv_sbWrite sb x y ⟨cp, fg, bg⟩ hinv
      have harg : x + ((j+1:Nat):Int) = (x + 1) + (j : Int) := by push_cast; ring
      have hib' : inBounds (sbWrite sb x y ⟨cp, fg, bg⟩) ((x + 1) + (j : Int)) y = true := by
        rw [inBounds_sbWrite, ← harg]
        exact hib
      have hrec := ih (sbWrite sb x y ⟨cp, fg, bg⟩) (x + 1) hinv' j (by simpa using hi) hib'
      show sbRead (printLoop y fg bg (sbWrite sb x y ⟨cp, fg, bg⟩) (x + 1) rest).1
        (x + ((j+1:Nat):Int)) y = some ⟨rest.getD j 0, fg, bg⟩
      rw [harg]
      exact hrec

/-! ## Dispatch branch equations -/

theorem dispatch_change_cell_eq (b : Backend) (w : Bool) (sb : ShadowBuffer)
    (s1 s2 s3 s4 s5 : String) :
    dispatch b w sb ["change_cell", s1, s2, s3, s4, s5] =
      ⟨sbWrite sb (atoi s1) (atoi s2)
         ⟨toUInt32 (strtoul10 s3), toUInt16 (atoi s4), toUInt16 (atoi s5)⟩,
       [.change_cell (atoi s1) (atoi s2) (toUInt32 (strtoul10 s3))
          (toUInt16 (atoi s4)) (toUInt16 (atoi s5))],
       ["OK"], if w then 0 else 1⟩ := rfl

theorem dispatch_print_eq (b : Backend) (w : Bool) (sb : ShadowBuffer)
    (s1 s2 s3 s4 t : String) (ts : List String) :
    dispatch b w sb ("print" :: s1 :: s2 :: s3 :: s4 :: t :: ts) =
      (if printTextTooLong (joinSpaces (t :: ts)) then
        ⟨sb, [], ["ERROR text_too_long_print"], 0⟩
       else
        ⟨(printLoop (atoi s2) (toUInt16 (atoi s3)) (toUInt16 (atoi s4)) sb (atoi s1)
            (decodeText (joinSpaces (t :: ts)))).1,
         (printLoop (atoi s2) (toUInt16 (atoi s3)) (toUInt16 (atoi s4)) sb (atoi s1)
            (decodeText (joinSpaces (t :: ts)))).2,
         ["OK"], if w then 0 else 1⟩) := by
  unfold dispatch
  simp only [List.length_cons, String.reduceEq, if_false, if_true, reduceIte]
  rw [if_pos (by omega)]
  rfl

theorem dispatch_get_cell_eq (b : Backend) (w : Bool) (sb : ShadowBuffer) (s1 s2 : String) :
    dispatch b w sb ["get_cell", s1, s2] =
      (match sbRead sb (atoi s1) (atoi s2) with
       | none => ⟨sb, [], ["ERROR invalid_coords_get_cell"], 0⟩
       | some cell =>
         ⟨sb, [],
          ["OK_CELL " ++ toString (atoi s1) ++ " " ++ toString (atoi s2) ++ " " ++
           tb_utf8_unicode_to_char cell.ch ++ " " ++ Nat.repr cell.fg ++ " " ++
           Nat.repr cell.bg], if w then 0 else 1⟩) := rfl

/-! ## Claims -/

/-- C1: for every coordinate (x,y) in bounds of the current non-empty shadow
buffer and every cell value (codepoint c, fg, bg), dispatching
`change_cell x y c fg bg` and then `get_cell x y` returns an `OK_CELL`
response carrying the same codepoint rendered as UTF-8 text, the same fg and
the same bg. -/
theorem c1_change_cell_get_cell_roundtrip
    (b : Backend) (w1 w2 : Bool) (sb : ShadowBuffer)
    (sx sy sc sfg sbg : String) (x y : Int) (c fg bg : Nat)
    (hinv : SBInv sb)
    (hx : atoi sx = x) (hy : atoi sy = y)
    (hc : strtoul10 sc = c) (hfg : atoi sfg = (fg : Int)) (hbg : atoi sbg = (bg : Int))
    (hcb : c < 4294967296) (hfgb : fg < 65536) (hbgb : bg < 65536)
    (hib : inBounds sb x y = true) :
    (dispatch b w2 (dispatch b w1 sb ["change_cell", sx, sy, sc, sfg, sbg]).sb
        ["get_cell", sx, sy]).out =
      ["OK_CELL " ++ toString x ++ " " ++ toString y ++ " " ++
       tb_utf8_unicode_to_char c ++ " " ++ Nat.repr fg ++ " " ++ Nat.repr bg] := by
  rw [dispatch_change_cell_eq]
  simp only
  rw [dispatch_get_cell_eq]
  rw [hx, hy, hc, hfg, hbg, toUInt32_of_lt c hcb, toUInt16_of_lt fg hfgb,
    toUInt16_of_lt bg hbgb]
  rw [sbRead_sbWrite_self sb x y ⟨c, fg, bg⟩ hinv hib]

/-- Witness for C1 at a concrete input: a 4x3 buffer, cell (2,1), codepoint 65
(`A`), fg 7, bg 3. -/
theorem c1_change_cell_get_cell_roundtrip_witness :
    (dispatch bC true
        (dispatch bC true (update_shadow_buffer_size 4 3 true)
          ["change_cell", "2", "1", "65", "7", "3"]).sb
        ["get_cell", "2", "1"]).out = ["OK_CELL 2 1 A 7 3"] := by
  have h := c1_change_cell_get_cell_roundtrip bC true true
    (update_shadow_buffer_size 4 3 true) "2" "1" "65" "7" "3" 2 1 65 7 3
    (by unfold SBInv update_shadow_buffer_size; simp)
    (by decide) (by decide) (by decide) (by decide) (by decide)
    (by decide) (by decide) (by decide) (by decide)
  rw [h]
  decide

/-- C2: a resize event with positive dimensions (W,H) resizes the shadow
buffer cache to WxH before the serialized event line is produced; afterwards
every `get_cell` inside [0,W)x[0,H) returns the default cell and every
coordinate outside returns the out-of-bounds error.  `allocOk = true` models
the successful allocation the claim presumes. -/
theorem c2_resize_event (b : Backend) (wOk : Bool) (sb : ShadowBuffer) (e : TbEvent)
    (W H : Int) (hty : e.type = TB_EVENT_RESIZE) (hw : e.w = W) (hh : e.h = H)
    (hW : 0 < W) (hH : 0 < H) :
    (eventStep sb e true).1 = update_shadow_buffer_size W H true ∧
    (eventStep sb e true).2 = [serializeEvent e] ∧
    (eventStep sb e true).1.width = W ∧
    (eventStep sb e true).1.height = H ∧
    (∀ sx sy : String, ∀ x y : Int, atoi sx = x → atoi sy = y →
      ((0 ≤ x ∧ x < W ∧ 0 ≤ y ∧ y < H →
        (dispatch b wOk (eventStep sb e true).1 ["get_cell", sx, sy]).out =
          ["OK_CELL " ++ toString x ++ " " ++ toString y ++ " " ++
           tb_utf8_unicode_to_char defaultCell.ch ++ " " ++
           Nat.repr defaultCell.fg ++ " " ++ Nat.repr defaultCell.bg]) ∧
       (¬ (0 ≤ x ∧ x < W ∧ 0 ≤ y ∧ y < H) →
        (dispatch b wOk (eventStep sb e true).1 ["get_cell", sx, sy]).out =
          ["ERROR invalid_coords_get_cell"]))) := by
  have hcond : ¬ ((W ≤ 0 || H ≤ 0) = true) := by
    intro hcon
    simp only [Bool.or_eq_true, decide_eq_true_eq] at hcon
    omega
  have hupd : update_shadow_buffer_size W H true =
      ⟨W, H, some (List.replicate (W * H).toNat defaultCell)⟩ := by
    unfold update_shadow_buffer_size
    rw [if_neg hcond, if_pos rfl]
  have hstep : eventStep sb e true = (update_shadow_buffer_size W H true, [serializeEvent e]) := by
    unfold eventStep
    simp [hty, hw, hh, TB_EVENT_RESIZE]
  refine ⟨by rw [hstep], by rw [hstep], by rw [hstep, hupd], by rw [hstep, hupd], ?_⟩
  intro sx sy x y hx hy
  constructor
  · intro hbox
    rw [hstep]
    simp only
    rw [hupd, dispatch_get_cell_eq, hx, hy]
    have hib : inBounds ⟨W, H, some (List.replicate (W * H).toNat defaultCell)⟩ x y = true := by
      rw [inBounds_iff]
      exact ⟨hbox.1, hbox.2.1, hbox.2.2.1, hbox.2.2.2⟩
    have hread : sbRead ⟨W, H, some (List.replicate (W * H).toNat defaultCell)⟩ x y =
        some defaultCell := by
      unfold sbRead
      simp only [hib, if_true]
      rw [listGetDReplicate]
    rw [hread]
  · intro hbox
    rw [hstep]
    simp only
    rw [hupd, dispatch_get_cell_eq, hx, hy]
    have hib : inBounds ⟨W, H, some (List.replicate (W * H).toNat defaultCell)⟩ x y = false := by
      rw [← Bool.not_eq_true, inBounds_iff]
      exact hbox
    have hread : sbRead ⟨W, H, some (List.replicate (W * H).toNat defaultCell)⟩ x y = none := by
      unfold sbRead
      simp only [hib]
      simp
    rw [hread]

/-- Witness for C2: resize to 5x4 from the empty start state; `get_cell 2 3`
returns the default cell, `get_cell 5 0` is out of bounds. -/
theorem c2_resize_event_witness :
    (eventStep sb0 ⟨2, 0, 0, 0, 5, 4, 0, 0⟩ true).1.width = 5 ∧
    (dispatch bC true (eventStep sb0 ⟨2, 0, 0, 0, 5, 4, 0, 0⟩ true).1
        ["get_cell", "2", "3"]).out = ["OK_CELL 2 3   0 0"] ∧
    (dispatch bC true (eventStep sb0 ⟨2, 0, 0, 0, 5, 4, 0, 0⟩ true).1
        ["get_cell", "5", "0"]).out = ["ERROR invalid_coords_get_cell"] := by
  have h := c2_resize_event bC true sb0 ⟨2, 0, 0, 0, 5, 4, 0, 0⟩ 5 4 rfl rfl rfl
    (by decide) (by decide)
  refine ⟨h.2.2.1, ?_, ?_⟩
  · have h2 := (h.2.2.2.2 "2" "3" 2 3 (by decide) (by decide)).1 (by decide)
    rw [h2]
    decide
  · exact (h.2.2.2.2 "5" "0" 5 0 (by decide) (by decide)).2 (by decide)

/-- C3: `print x y fg bg text…` walks the decoded codepoints of the rejoined
text left to right from column x; each codepoint yields one backend paint
call unconditionally and advances the column by one; the cache mirror write
happens exactly for the columns inside the current shadow-buffer bounds and
all other cells are untouched; in particular `print 0 0 1 2 "ab"` makes
`get_cell 0 0` return (`a`,1,2) and `get_cell 1 0` return (`b`,1,2). -/
theorem c3_print_walk
    (b : Backend) (w : Bool) (sb : ShadowBuffer)
    (sx sy sfg sbg t : String) (ts : List String) (x y : Int) (fg bg : Nat)
    (hinv : SBInv sb)
    (hx : atoi sx = x) (hy : atoi sy = y)
    (hfg : toUInt16 (atoi sfg) = fg) (hbg : toUInt16 (atoi sbg) = bg)
    (hshort : printTextTooLong (joinSpaces (t :: ts)) = false) :
    ((dispatch b w sb ("print" :: sx :: sy :: sfg :: sbg :: t :: ts)).out = ["OK"] ∧
     (dispatch b w sb ("print" :: sx :: sy :: sfg :: sbg :: t :: ts)).calls.length =
       (decodeText (joinSpaces (t :: ts))).length ∧
     (∀ i : Nat, i < (decodeText (joinSpaces (t :: ts))).length →
       (dispatch b w sb ("print" :: sx :: sy :: sfg :: sbg :: t :: ts)).calls.getD i
           .present =
         .change_cell (x + i) y ((decodeText (joinSpaces (t :: ts))).getD i 0) fg bg) ∧
     (dispatch b w sb ("print" :: sx :: sy :: sfg :: sbg :: t :: ts)).sb.width = sb.width ∧
     (dispatch b w sb ("print" :: sx :: sy :: sfg :: sbg :: t :: ts)).sb.height = sb.height ∧
     (∀ i : Nat, i < (decodeText (joinSpaces (t :: ts))).length →
       inBounds sb (x + i) y = true →
       sbRead (dispatch b w sb ("print" :: sx :: sy :: sfg :: sbg :: t :: ts)).sb (x + i) y =
         some ⟨(decodeText (joinSpaces (t :: ts))).getD i 0, fg, bg⟩) ∧
     (∀ u v : Int,
       (v ≠ y ∨ u < x ∨ x + (decodeText (joinSpaces (t :: ts))).length ≤ u) →
       sbRead (dispatch b w sb ("print" :: sx :: sy :: sfg :: sbg :: t :: ts)).sb u v =
         sbRead sb u v)) ∧
    ((handle_client_command bC true (update_shadow_buffer_size 12 3 true)
        "print 0 0 1 2 ab").out = ["OK"] ∧
     (dispatch bC true (handle_client_command bC true (update_shadow_buffer_size 12 3 true)
          "print 0 0 1 2 ab").sb ["get_cell", "0", "0"]).out = ["OK_CELL 0 0 a 1 2"] ∧
     (dispatch bC true (handle_client_command bC true (update_shadow_buffer_size 12 3 true)
          "print 0 0 1 2 ab").sb ["get_cell", "1", "0"]).out = ["OK_CELL 1 0 b 1 2"]) := by
  have heq : dispatch b w sb ("print" :: sx :: sy :: sfg :: sbg :: t :: ts) =
      ⟨(printLoop y fg bg sb x (decodeText (joinSpaces (t :: ts)))).1,
       (printLoop y fg bg sb x (decodeText (joinSpaces (t :: ts)))).2,
       ["OK"], if w then 0 else 1⟩ := by
    rw [dispatch_print_eq, if_neg (by simp [hshort]), hx, hy, hfg, hbg]
  refine ⟨⟨?_, ?_, ?_, ?_, ?_, ?_, ?_⟩, by decide, by decide, by decide⟩
  · rw [heq]
  · rw [heq]; exact printLoop_calls_length y fg bg _ sb x
  · intro i hi
    rw [heq]
    exact printLoop_calls_getD y fg bg _ sb x i hi
  · rw [heq]; exact printLoop_width y fg bg _ sb x
  · rw [heq]; exact printLoop_height y fg bg _ sb x
  · intro i hi hib
    rw [heq]
    exact printLoop_read y fg bg _ sb x hinv i hi hib
  · intro u v huv
    rw [heq]
    exact printLoop_untouched y fg bg _ sb x u v huv

/-- Witness for C3: `print 0 0 1 2 ab` on a 12x3 buffer paints `a` at column
0 and `b` at column 1, and answers `OK`. -/
theorem c3_print_walk_witness :
    (dispatch bC true (update_shadow_buffer_size 12 3 true)
        ["print", "0", "0", "1", "2", "ab"]).calls.getD 1 .present =
      .change_cell 1 0 98 1 2 ∧
    (dispatch bC true (update_shadow_buffer_size 12 3 true)
        ["print", "0", "0", "1", "2", "ab"]).out = ["OK"] := by
  have h := c3_print_walk bC true (update_shadow_buffer_size 12 3 true)
    "0" "0" "1" "2" "ab" [] 0 0 1 2
    (by unfold SBInv update_shadow_buffer_size; simp)
    (by decide) (by decide) (by decide) (by decide) (by decide)
  constructor
  · have h2 := h.1.2.2.1 1 (by decide)
    rw [h2]
    decide
  · exact h.1.1

/-- C4 counterexample: `shutdown` with an extra argument is a recognized
command with an incorrect argument count, yet it responds `OK` (not
`ERROR invalid_args_shutdown`) and signals loop termination; and
`DEBUG_SEND_EVENT` with a wrong count answers with the lowercased
`ERROR invalid_args_debug_send_event`, not its verb spelling. -/
theorem c4_arity_counterexample :
    (dispatch bC true sb0 ["shutdown", "extra"]).out = ["OK"] ∧
    (dispatch bC true sb0 ["shutdown", "extra"]).out ≠ ["ERROR invalid_args_shutdown"] ∧
    (dispatch bC true sb0 ["shutdown", "extra"]).ret = 1 ∧
    (dispatch bC true sb0 ["DEBUG_SEND_EVENT"]).out =
      ["ERROR invalid_args_debug_send_event"] ∧
    (dispatch bC true sb0 ["DEBUG_SEND_EVENT"]).out ≠
      ["ERROR invalid_args_DEBUG_SEND_EVENT"] := by
  decide

/-- C4 (amended): every recognized command except `shutdown`, invoked with an
incorrect argument count, returns exactly `ERROR invalid_args_<verb>` with
the verb spelled in lower case, makes no backend call and leaves the shadow
buffer unchanged (and its return value 0 keeps the loop running); `shutdown`
performs no arity check and acts regardless of extra arguments. -/
theorem c4_arity_validation (b : Backend) (w : Bool) (sb : ShadowBuffer)
    (rest : List String) :
    (rest ≠ [] → dispatch b w sb ("present" :: rest) =
      ⟨sb, [], ["ERROR invalid_args_present"], 0⟩) ∧
    (rest ≠ [] → dispatch b w sb ("clear" :: rest) =
      ⟨sb, [], ["ERROR invalid_args_clear"], 0⟩) ∧
    (rest.length < 5 → dispatch b w sb ("print" :: rest) =
      ⟨sb, [], ["ERROR invalid_args_print"], 0⟩) ∧
    (rest.length ≠ 5 → dispatch b w sb ("change_cell" :: rest) =
      ⟨sb, [], ["ERROR invalid_args_change_cell"], 0⟩) ∧
    (rest.length ≠ 2 → dispatch b w sb ("get_cell" :: rest) =
      ⟨sb, [], ["ERROR invalid_args_get_cell"], 0⟩) ∧
    (rest ≠ [] → dispatch b w sb ("width" :: rest) =
      ⟨sb, [], ["ERROR invalid_args_width"], 0⟩) ∧
    (rest ≠ [] → dispatch b w sb ("height" :: rest) =
      ⟨sb, [], ["ERROR invalid_args_height"], 0⟩) ∧
    (rest.length ≠ 2 → dispatch b w sb ("set_cursor" :: rest) =
      ⟨sb, [], ["ERROR invalid_args_set_cursor"], 0⟩) ∧
    (rest.length ≠ 1 → dispatch b w sb ("set_input_mode" :: rest) =
      ⟨sb, [], ["ERROR invalid_args_set_input_mode"], 0⟩) ∧
    (rest.length ≠ 1 → dispatch b w sb ("set_output_mode" :: rest) =
      ⟨sb, [], ["ERROR invalid_args_set_output_mode"], 0⟩) ∧
    (rest.length ≠ 2 → dispatch b w sb ("set_clear_attributes" :: rest) =
      ⟨sb, [], ["ERROR invalid_args_set_clear_attributes"], 0⟩) ∧
    (rest.length ≠ 8 → dispatch b w sb ("DEBUG_SEND_EVENT" :: rest) =
      ⟨sb, [], ["ERROR invalid_args_debug_send_event"], 0⟩) ∧
    (dispatch b w sb ("shutdown" :: rest) = ⟨sb, [], ["OK"], 1⟩) := by
  refine ⟨?_, ?_, ?_, ?_, ?_, ?_, ?_, ?_, ?_, ?_, ?_, ?_, ?_⟩
  · intro h
    unfold dispatch
    simp only [String.reduceEq, reduceIte]
    rw [if_neg (by simpa [List.length_eq_zero] using h)]
  · intro h
    unfold dispatch
    simp only [String.reduceEq, reduceIte]
    rw [if_neg (by simpa [List.length_eq_zero] using h)]
  · intro h
    unfold dispatch
    simp only [String.reduceEq, reduceIte]
    rw [if_neg (by omega)]
  · intro h
    unfold dispatch
    simp only [String.reduceEq, reduceIte]
    rw [if_neg h]
  · intro h
    unfold dispatch
    simp only [String.reduceEq, reduceIte]
    rw [if_neg h]
  · intro h
    unfold dispatch
    simp only [String.reduceEq, reduceIte]
    rw [if_neg (by simpa [List.length_eq_zero] using h)]
  · intro h
    unfold dispatch
    simp only [String.reduceEq, reduceIte]
    rw [if_neg (by simpa [List.length_eq_zero] using h)]
  · intro h
    unfold dispatch
    simp only [String.reduceEq, reduceIte]
    rw [if_neg h]
  · intro h
    unfold dispatch
    simp only [String.reduceEq, reduceIte]
    rw [if_neg h]
  · intro h
    unfold dispatch
    simp only [String.reduceEq, reduceIte]
    rw [if_neg h]
  · intro h
    unfold dispatch
    simp only [String.reduceEq, reduceIte]
    rw [if_neg h]
  · intro h
    unfold dispatch
    simp only [String.reduceEq, reduceIte]
    rw [if_neg h]
  · unfold dispatch
    simp only [String.reduceEq, reduceIte]

/-- Witness for C4 (amended): `get_cell` with one argument. -/
theorem c4_arity_validation_witness :
    dispatch bC true sb0 ["get_cell", "x"] =
      ⟨sb0, [], ["ERROR invalid_args_get_cell"], 0⟩ :=
  (c4_arity_validation bC true sb0 ["x"]).2.2.2.2.1 (by decide)

/-- C5 counterexample: a write failure while answering `present` makes
`handle_client_command` return 1, which the session loop maps to clean-exit
status 0, and `main` turns that into the success exit code 0 — not a failure
code; a write failure on a forwarded event line does not terminate the loop
at all. -/
theorem c5_write_failure_counterexample :
    (dispatch bC false sb0 ["present"]).ret = 1 ∧
    loopOutcomeOfRet (dispatch bC false sb0 ["present"]).ret = some 0 ∧
    processExit 0 = 0 ∧
    (loopIteration bC false true sb0 (some ⟨1, 0, 65, 97, 0, 0, 0, 0⟩) ""
      .noData).outcome = none := by
  decide

/-- The return value of `handle_client_command` is always 0 or 1: the
function has no negative return, so the loop's `cmd_result < 0` error branch
is unreachable. -/
theorem dispatch_ret_zero_or_one (b : Backend) (sb : ShadowBuffer) (w : Bool)
    (args : List String) :
    (dispatch b w sb args).ret = 0 ∨ (dispatch b w sb args).ret = 1 := by
  rcases args with _ | ⟨cmd, rest⟩
  · exact Or.inl rfl
  unfold dispatch
  by_cases h1 : cmd = "present"
  · subst h1
    simp only [String.reduceEq, reduceIte]
    rcases rest with _ | ⟨a, as⟩
    · cases w
      · exact Or.inr rfl
      · exact Or.inl rfl
    · exact Or.inl rfl
  by_cases h2 : cmd = "clear"
  · subst h2
    simp only [String.reduceEq, reduceIte]
    rcases rest with _ | ⟨a, as⟩
    · cases w
      · exact Or.inr rfl
      · exact Or.inl rfl
    · exact Or.inl rfl
  by_cases h3 : cmd = "print"
  · subst h3
    simp only [String.reduceEq, reduceIte]
    by_cases h5 : 5 ≤ rest.length
    · rw [if_pos h5]
      by_cases htl : printTextTooLong (joinSpaces (rest.drop 4)) = true
      · rw [if_pos htl]
        exact Or.inl rfl
      · rw [if_neg htl]
        cases w
        · exact Or.inr rfl
        · exact Or.inl rfl
    · rw [if_neg h5]
      exact Or.inl rfl
  by_cases h4 : cmd = "change_cell"
  · subst h4
    simp only [String.reduceEq, reduceIte]
    by_cases hl : rest.length = 5
    · rw [if_pos hl]
      cases w
      · exact Or.inr rfl
      · exact Or.inl rfl
    · rw [if_neg hl]
      exact Or.inl rfl
  by_cases h5 : cmd = "get_cell"
  · subst h5
    simp only [String.reduceEq, reduceIte]
    by_cases hl : rest.length = 2
    · rw [if_pos hl]
      cases hr : sbRead sb (atoi (rest.getD 0 "")) (atoi (rest.getD 1 ""))
      · exact Or.inl rfl
      · cases w
        · exact Or.inr rfl
        · exact Or.inl rfl
    · rw [if_neg hl]
      exact Or.inl rfl
  by_cases h6 : cmd = "width"
  · subst h6
    simp only [String.reduceEq, reduceIte]
    rcases rest with _ | ⟨a, as⟩
    · cases w
      · exact Or.inr rfl
      · exact Or.inl rfl
    · exact Or.inl rfl
  by_cases h7 : cmd = "height"
  · subst h7
    simp only [String.reduceEq, reduceIte]
    rcases rest with _ | ⟨a, as⟩
    · cases w
      · exact Or.inr rfl
      · exact Or.inl rfl
    · exact Or.inl rfl
  by_cases h8 : cmd = "set_cursor"
  · subst h8
    simp only [String.reduceEq, reduceIte]
    by_cases hl : rest.length = 2
    · rw [if_pos hl]
      cases w
      · exact Or.inr rfl
      · exact Or.inl rfl
    · rw [if_neg hl]
      exact Or.inl rfl
  by_cases h9 : cmd = "set_input_mode"
  · subst h9
    simp only [String.reduceEq, reduceIte]
    by_cases hl : rest.length = 1
    · rw [if_pos hl]
      by_cases hm : b.selInput (atoi (rest.getD 0 "")) < 0
      · rw [if_pos hm]
        exact Or.inl rfl
      · rw [if_neg hm]
        cases w
        · exact Or.inr rfl
        · exact Or.inl rfl
    · rw [if_neg hl]
      exact Or.inl rfl
  by_cases h10 : cmd = "set_output_mode"
  · subst h10
    simp only [String.reduceEq, reduceIte]
    by_cases hl : rest.length = 1
    · rw [if_pos hl]
      by_cases hm : b.selOutput (atoi (rest.getD 0 "")) < 0
      · rw [if_pos hm]
        exact Or.inl rfl
      · rw [if_neg hm]
        cases w
        · exact Or.inr rfl
        · exact Or.inl rfl
    · rw [if_neg hl]
      exact Or.inl rfl
  by_cases h11 : cmd = "set_clear_attributes"
  · subst h11
    simp only [String.reduceEq, reduceIte]
    by_cases hl : rest.length = 2
    · rw [if_pos hl]
      cases w
      · exact Or.inr rfl
      · exact Or.inl rfl
    · rw [if_neg hl]
      exact Or.inl rfl
  by_cases h12 : cmd = "DEBUG_SEND_EVENT"
  · subst h12
    simp only [String.reduceEq, reduceIte]
    by_cases hl : rest.length = 8
    · rw [if_pos hl]
      exact Or.inl rfl
    · rw [if_neg hl]
      exact Or.inl rfl
  by_cases h13 : cmd = "shutdown"
  · subst h13
    simp only [String.reduceEq, reduceIte]
    right
    trivial
  simp only [h1, h2, h3, h4, h5, h6, h7, h8, h9, h10, h11, h12, h13, reduceIte]
  left
  trivial

/-- C5 (amended): `handle_client_command` only ever returns 0 or 1, so the
loop's error branch (exit status 1) is unreachable from command handling; a
failed write of a success response returns 1, which the loop treats as the
clean-shutdown signal (exit status 0, process success); a failed write of an
error response returns 0 and the session continues; a failed event-line
write never terminates the loop. -/
theorem c5_write_failure_not_fatal (b : Backend) (sb : ShadowBuffer) :
    (∀ (w : Bool) (args : List String),
      (dispatch b w sb args).ret = 0 ∨ (dispatch b w sb args).ret = 1) ∧
    (dispatch b false sb ["present"]).ret = 1 ∧
    (dispatch b false sb ["present", "x"]).ret = 0 ∧
    loopOutcomeOfRet 1 = some 0 ∧
    processExit 0 = 0 ∧
    (∀ (w aOk : Bool) (e : TbEvent) (carry : String),
      (loopIteration b w aOk sb (some e) carry .noData).outcome = none) := by
  exact ⟨fun w args => dispatch_ret_zero_or_one b sb w args, rfl, rfl, rfl, rfl,
    fun _ _ _ _ => rfl⟩

/-- Witness for C5 (amended): the general return-value statement applied at
a concrete command. -/
theorem c5_write_failure_not_fatal_witness :
    (dispatch bC false sb0 ["clear"]).ret = 0 ∨ (dispatch bC false sb0 ["clear"]).ret = 1 :=
  (c5_write_failure_not_fatal bC sb0).1 false ["clear"]

/-- C6 counterexample: a failed allocation for a 1x1 resize only empties the
cache and logs to stderr; processing a resize event under allocation failure
leaves the session loop running (outcome `none`), so the failure is not a
process-level fatal condition. -/
theorem c6_alloc_failure_counterexample :
    update_shadow_buffer_size 1 1 false = ⟨0, 0, none⟩ ∧
    update_logs_alloc_failure 1 1 false = true ∧
    (loopIteration bC true false sb0 (some ⟨2, 0, 0, 0, 1, 1, 0, 0⟩) ""
      .noData).outcome = none := by
  decide

/-- C6 (amended): `update_shadow_buffer_size` never fails its caller:
non-positive dimensions empty the cache; positive dimensions with successful
allocation install exactly `width*height` default cells; on allocation
failure the cache is emptied (zero dimensions, no storage) and an error line
is logged to stderr, and the process continues — the failure is neither a
command-level error nor a process-fatal condition. -/
theorem c6_resize_never_fails (width height : Int) :
    (width ≤ 0 ∨ height ≤ 0 → ∀ aOk : Bool,
      update_shadow_buffer_size width height aOk = ⟨0, 0, none⟩) ∧
    (0 < width → 0 < height →
      update_shadow_buffer_size width height true =
        ⟨width, height, some (List.replicate (width * height).toNat defaultCell)⟩) ∧
    (0 < width → 0 < height →
      update_shadow_buffer_size width height false = ⟨0, 0, none⟩ ∧
      update_logs_alloc_failure width height false = true) ∧
    (∀ (b : Backend) (w aOk : Bool) (sb : ShadowBuffer) (e : TbEvent) (carry : String),
      (loopIteration b w aOk sb (some e) carry .noData).outcome = none) := by
  refine ⟨?_, ?_, ?_, fun _ _ _ _ _ _ => rfl⟩
  · intro h aOk
    unfold update_shadow_buffer_size
    rw [if_pos (by simpa using h)]
  · intro hW hH
    unfold update_shadow_buffer_size
    rw [if_neg (by simp; omega), if_pos rfl]
  · intro hW hH
    constructor
    · unfold update_shadow_buffer_size
      rw [if_neg (by simp; omega)]
      rfl
    · unfold update_logs_alloc_failure
      simp
      omega

/-- Witness for C6 (amended): a successful 2x2 resize. -/
theorem c6_resize_never_fails_witness :
    update_shadow_buffer_size 2 2 true = ⟨2, 2, some (List.replicate 4 defaultCell)⟩ := by
  have h := (c6_resize_never_fails 2 2).2.1 (by decide) (by decide)
  rw [h]
  decide

/-- C7: `shutdown` answers `OK` and stops the line-dispatch loop with the
clean-exit status 0 (which `main` maps to process success), and no command
line buffered after the shutdown line is ever dispatched — the remaining
lines of the same read contribute no state change, no backend call and no
output, and the loop outcome `some 0` ends the session so no later iteration
runs. -/
theorem c7_shutdown_stops_dispatch (b : Backend) (w : Bool) (sb : ShadowBuffer)
    (rest : List String) :
    processLines b w sb ("shutdown" :: rest) = ⟨sb, [], ["OK"], some 0⟩ ∧
    processExit 0 = 0 ∧
    loopIteration bC true true sb0 none "" (.data "shutdown\nfollow\n") =
      ⟨sb0, [], ["OK"], some 0, ""⟩ := by
  exact ⟨rfl, rfl, by decide⟩

/-- C8: within one serving-loop iteration, the pending terminal event's line
is emitted before any output of the command lines buffered on that same
iteration; and the lines of one read are dispatched strictly in arrival
order — the head line is handled first and its response precedes all
later responses. -/
theorem c8_event_first_commands_in_order (b : Backend) (w aOk : Bool)
    (sb : ShadowBuffer) (e : TbEvent) (carry s : String) :
    ((loopIteration b w aOk sb (some e) carry (.data s)).out =
      serializeEvent e ::
        (processLines b w (eventStep sb e aOk).1 (splitBuffer (carry ++ s)).1).out) ∧
    (∀ (sb' : ShadowBuffer) (l : String) (ls : List String),
      (handle_client_command b w sb' l).ret = 0 →
      processLines b w sb' (l :: ls) =
        ⟨(processLines b w (handle_client_command b w sb' l).sb ls).sb,
         (handle_client_command b w sb' l).calls ++
           (processLines b w (handle_client_command b w sb' l).sb ls).calls,
         (handle_client_command b w sb' l).out ++
           (processLines b w (handle_client_command b w sb' l).sb ls).out,
         (processLines b w (handle_client_command b w sb' l).sb ls).outcome⟩) := by
  constructor
  · rfl
  · intro sb' l ls h
    simp only [processLines]
    rw [h]
    norm_num

/-- Witness for C8: a pending key event plus the two commands
`present` and `width` in one read; the event line comes first and the two
responses follow in arrival order. -/
theorem c8_event_first_commands_in_order_witness :
    ((loopIteration bC true true sb0 (some ⟨1, 0, 0, 97, 0, 0, 0, 0⟩) ""
        (.data "present\nwidth\n")).out =
      serializeEvent ⟨1, 0, 0, 97, 0, 0, 0, 0⟩ ::
        (processLines bC true (eventStep sb0 ⟨1, 0, 0, 97, 0, 0, 0, 0⟩ true).1
          (splitBuffer ("" ++ "present\nwidth\n")).1).out) ∧
    processLines bC true sb0 ["present", "width"] =
      ⟨sb0, [.present, .widthQ], ["OK", "OK_WIDTH 80"], none⟩ := by
  constructor
  · exact (c8_event_first_commands_in_order bC true true sb0 ⟨1, 0, 0, 97, 0, 0, 0, 0⟩
      "" "present\nwidth\n").1
  · have h := (c8_event_first_commands_in_order bC true true sb0
      ⟨1, 0, 0, 97, 0, 0, 0, 0⟩ "" "present\nwidth\n").2 sb0 "present" ["width"]
      (by decide)
    rw [h]
    decide

/-- C9 counterexample: on socket-creation failure nothing at all is written
to standard output — the `error socket_create_failed` line goes to standard
error — so the claim's "reported on the process's standard output" is false
at this input (the exit code 1 and the pre-accept exit do hold). -/
theorem c9_bootstrap_counterexample :
    bootstrapStdout .socketFail "/tmp/termbox_port_1.sock" = [] ∧
    ¬ ("error socket_create_failed" ∈ bootstrapStdout .socketFail "/tmp/termbox_port_1.sock") ∧
    bootstrapStderrLine .socketFail = some "error socket_create_failed" ∧
    bootstrapExitBeforeAccept .socketFail = some 1 := by
  decide

/-- C9 (amended): every bootstrap failure writes the line `error <reason>`
(`socket_create_failed`, `socket_bind_failed` or `socket_listen_failed`) to
standard error — not standard output, which stays empty — and the process
exits with code 1 before any connection is accepted; on success
`OK <socket-path>` is written to standard output. -/
theorem c9_bootstrap_reporting (path : String) :
    (∀ st : BootStage, st ≠ .ok →
      bootstrapStdout st path = [] ∧ bootstrapExitBeforeAccept st = some 1) ∧
    bootstrapStderrLine .socketFail = some "error socket_create_failed" ∧
    bootstrapStderrLine .bindFail = some "error socket_bind_failed" ∧
    bootstrapStderrLine .listenFail = some "error socket_listen_failed" ∧
    bootstrapStdout .ok path = ["OK " ++ path] ∧
    bootstrapStderrLine .ok = none ∧
    bootstrapExitBeforeAccept .ok = none := by
  refine ⟨?_, rfl, rfl, rfl, rfl, rfl, rfl⟩
  intro st hst
  cases st with
  | socketFail => exact ⟨rfl, rfl⟩
  | bindFail => exact ⟨rfl, rfl⟩
  | listenFail => exact ⟨rfl, rfl⟩
  | ok => exact absurd rfl hst

/-- Witness for C9 (amended): the bind-failure stage. -/
theorem c9_bootstrap_reporting_witness :
    bootstrapStdout .bindFail "/tmp/x.sock" = [] ∧
    bootstrapExitBeforeAccept .bindFail = some 1 :=
  (c9_bootstrap_reporting "/tmp/x.sock").1 .bindFail (by decide)

/-- C10: tokenization yields at most 10 tokens (verb plus 9 arguments) and
silently discards the rest of the line, so `print 0 0 1 2 a b c d e f`
behaves exactly like `print 0 0 1 2 a b c d e`: it answers `OK` (no error)
and paints and mirrors only the characters of the first five text tokens
(rejoined with single spaces). -/
theorem c10_token_cap :
    (∀ line : String, (tokenize line).length ≤ 10) ∧
    tokenize "print 0 0 1 2 a b c d e f" =
      ["print", "0", "0", "1", "2", "a", "b", "c", "d", "e"] ∧
    handle_client_command bC true (update_shadow_buffer_size 12 3 true)
        "print 0 0 1 2 a b c d e f" =
      handle_client_command bC true (update_shadow_buffer_size 12 3 true)
        "print 0 0 1 2 a b c d e" ∧
    (handle_client_command bC true (update_shadow_buffer_size 12 3 true)
        "print 0 0 1 2 a b c d e f").out = ["OK"] ∧
    (handle_client_command bC true (update_shadow_buffer_size 12 3 true)
        "print 0 0 1 2 a b c d e f").calls =
      [.change_cell 0 0 97 1 2, .change_cell 1 0 32 1 2, .change_cell 2 0 98 1 2,
       .change_cell 3 0 32 1 2, .change_cell 4 0 99 1 2, .change_cell 5 0 32 1 2,
       .change_cell 6 0 100 1 2, .change_cell 7 0 32 1 2,
       .change_cell 8 0 101 1 2] := by
  refine ⟨?_, by decide, by decide, by decide, by decide⟩
  intro line
  unfold tokenize
  rw [List.length_take]
  exact min_le_left _ _

end TermboxPort
